import Mathlib

/-!
Verification development for the closet.city DTP (digital tailoring pipeline)
backend: a shallow embedding of the job orchestration pipeline
(`dtpService.processDtpJob`), the job store (`db.js`), the submission and
status routes (`dtpRoutes.js`), the Gemini generation adapter
(`geminiService.generateContent`), the simulated pose adapter
(`vertexAIService.simulateKeypoints`), the artifact store (`gcsService`),
the rate limiter (`enforceDtpRateLimit`) and the catalog fitting-metadata
normalization (`catalogRoutes.normalizeAnchor`), together with theorems about
the spec-level properties of these components.

Conventions of the embedding:
- JavaScript strings are Lean `String`s; values that may be `null`/`undefined`
  or of the wrong dynamic type are `Option`s (a JS `typeof v === 'string'`
  guard corresponds to the value being `some`).
- JS numbers used as byte values, sizes and timestamps are `Nat`; signed
  arithmetic (`Date.now()` differences) is `Int`; keypoint scores and anchor
  coordinates are `ℚ` (the JS doubles involved are decimal fractions well
  inside the exactly-representable range).
- Node `crypto` SHA-256 is implemented concretely below, over lists of bytes
  (`Nat < 256`).
-/

/-! ## JS string helpers -/

/-- JS `String.prototype.toUpperCase()` (ASCII range, which is all the code
compares against). -/
def jsToUpper (s : String) : String := String.mk (s.data.map Char.toUpper)

/-- JS `String.prototype.toLowerCase()` (ASCII range). -/
def jsToLower (s : String) : String := String.mk (s.data.map Char.toLower)

/-- JS `String.prototype.trim()`: strip leading and trailing whitespace. -/
def jsTrim (s : String) : String :=
  String.mk (((s.data.dropWhile Char.isWhitespace).reverse.dropWhile
    Char.isWhitespace).reverse)

/-- JS `String.prototype.startsWith(pre)`. -/
def jsStartsWith (s pre : String) : Bool :=
  s.data.take pre.data.length = pre.data

/-- JS truthiness of a possibly-missing string value: `undefined`, `null` and
the empty string are falsy. -/
def truthyStrOpt (o : Option String) : Bool :=
  match o with
  | none => false
  | some s => s ≠ ""

/-! ## UTF-8 encoding

Node's `hash.update(string)` and `Buffer.byteLength(string, 'utf8')` both use
the UTF-8 encoding of the string. -/

/-- UTF-8 encoding of one Unicode scalar value, as bytes. -/
def utf8EncodeChar (c : Char) : List Nat :=
  let n := c.toNat
  if n < 128 then [n]
  else if n < 2048 then [192 + n / 64, 128 + n % 64]
  else if n < 65536 then [224 + n / 4096, 128 + n / 64 % 64, 128 + n % 64]
  else [240 + n / 262144, 128 + n / 4096 % 64, 128 + n / 64 % 64, 128 + n % 64]

/-- UTF-8 bytes of a string. -/
def utf8Bytes (s : String) : List Nat :=
  (s.data.map utf8EncodeChar).flatten

/-! ## SHA-256 (Node `createHash('sha256')`) -/

/-- Truncation to a 32-bit word. -/
def wrap32 (n : Nat) : Nat := n % 4294967296

/-- 32-bit right rotation (operand assumed `< 2^32`). -/
def rotr32 (n x : Nat) : Nat := wrap32 ((x >>> n) ||| (x <<< (32 - n)))

def shaCh (x y z : Nat) : Nat := (x &&& y) ^^^ ((x ^^^ 4294967295) &&& z)

def shaMaj (x y z : Nat) : Nat := (x &&& y) ^^^ (x &&& z) ^^^ (y &&& z)

def shaBigSigma0 (x : Nat) : Nat := rotr32 2 x ^^^ rotr32 13 x ^^^ rotr32 22 x

def shaBigSigma1 (x : Nat) : Nat := rotr32 6 x ^^^ rotr32 11 x ^^^ rotr32 25 x

def shaSmallSigma0 (x : Nat) : Nat := rotr32 7 x ^^^ rotr32 18 x ^^^ (x >>> 3)

def shaSmallSigma1 (x : Nat) : Nat := rotr32 17 x ^^^ rotr32 19 x ^^^ (x >>> 10)

/-- The SHA-256 round constants. -/
def sha256K : List Nat :=
  [1116352408, 1899447441, 3049323471, 3921009573, 961987163,
   1508970993, 2453635748, 2870763221, 3624381080, 310598401,
   607225278, 1426881987, 1925078388, 2162078206, 2614888103,
   3248222580, 3835390401, 4022224774, 264347078, 604807628,
   770255983, 1249150122, 1555081692, 1996064986, 2554220882,
   2821834349, 2952996808, 3210313671, 3336571891, 3584528711,
   113926993, 338241895, 666307205, 773529912, 1294757372,
   1396182291, 1695183700, 1986661051, 2177026350, 2456956037,
   2730485921, 2820302411, 3259730800, 3345764771, 3516065817,
   3600352804, 4094571909, 275423344, 430227734, 506948616,
   659060556, 883997877, 958139571, 1322822218, 1537002063,
   1747873779, 1955562222, 2024104815, 2227730452, 2361852424,
   2428436474, 2756734187, 3204031479, 3329325298]

/-- Working state of the compression function. -/
structure Sha256St where
  a : Nat
  b : Nat
  c : Nat
  d : Nat
  e : Nat
  f : Nat
  g : Nat
  hh : Nat
deriving DecidableEq, Repr

/-- Initial hash value. -/
def sha256Init : Sha256St :=
  ⟨1779033703, 3144134277, 1013904242, 2773480762,
   1359893119, 2600822924, 528734635, 1541459225⟩

/-- Group a byte list into big-endian 32-bit words. -/
def bytesToWords : List Nat → List Nat
  | b0 :: b1 :: b2 :: b3 :: rest =>
    (((b0 * 256 + b1) * 256 + b2) * 256 + b3) :: bytesToWords rest
  | _ => []

/-- Extend a 16-word message schedule by `fuel` further words. -/
def extendSchedule (ws : List Nat) : Nat → List Nat
  | 0 => ws
  | fuel + 1 =>
    let i := ws.length
    let nw := wrap32 (shaSmallSigma1 (ws.getD (i - 2) 0) + ws.getD (i - 7) 0 +
      shaSmallSigma0 (ws.getD (i - 15) 0) + ws.getD (i - 16) 0)
    extendSchedule (ws ++ [nw]) fuel

/-- One round of the SHA-256 compression function. -/
def shaRound (st : Sha256St) (wk : Nat × Nat) : Sha256St :=
  let t1 := wrap32 (st.hh + shaBigSigma1 st.e + shaCh st.e st.f st.g + wk.2 + wk.1)
  let t2 := wrap32 (shaBigSigma0 st.a + shaMaj st.a st.b st.c)
  ⟨wrap32 (t1 + t2), st.a, st.b, st.c, wrap32 (st.d + t1), st.e, st.f, st.g⟩

/-- Process one 64-byte block. -/
def shaBlock (st : Sha256St) (block : List Nat) : Sha256St :=
  let ws := extendSchedule (bytesToWords block) 48
  let r := (ws.zip sha256K).foldl shaRound st
  ⟨wrap32 (st.a + r.a), wrap32 (st.b + r.b), wrap32 (st.c + r.c),
   wrap32 (st.d + r.d), wrap32 (st.e + r.e), wrap32 (st.f + r.f),
   wrap32 (st.g + r.g), wrap32 (st.hh + r.hh)⟩

/-- Big-endian 8-byte encoding of a length (in bits). -/
def be64 (n : Nat) : List Nat :=
  [n / 72057594037927936 % 256, n / 281474976710656 % 256,
   n / 1099511627776 % 256, n / 4294967296 % 256,
   n / 16777216 % 256, n / 65536 % 256, n / 256 % 256, n % 256]

/-- SHA-256 padding: append `0x80`, zero bytes up to 56 mod 64, then the
64-bit big-endian bit length. -/
def shaPad (msg : List Nat) : List Nat :=
  let padZeros := (119 - msg.length % 64) % 64
  msg ++ [128] ++ List.replicate padZeros 0 ++ be64 (msg.length * 8)

/-- Split into 64-byte chunks. -/
def chunks64 (l : List Nat) : List (List Nat) :=
  match l with
  | [] => []
  | x :: xs => ((x :: xs).take 64) :: chunks64 ((x :: xs).drop 64)
termination_by l.length
decreasing_by simp [List.length_drop]; omega

/-- Big-endian bytes of one 32-bit word. -/
def wordBytes (n : Nat) : List Nat :=
  [n / 16777216 % 256, n / 65536 % 256, n / 256 % 256, n % 256]

/-- SHA-256 digest (32 bytes) of a byte list. -/
def sha256 (msg : List Nat) : List Nat :=
  let st := (chunks64 (shaPad msg)).foldl shaBlock sha256Init
  wordBytes st.a ++ wordBytes st.b ++ wordBytes st.c ++ wordBytes st.d ++
  wordBytes st.e ++ wordBytes st.f ++ wordBytes st.g ++ wordBytes st.hh

/-! ## Simulated pose keypoints (`vertexAIService.simulateKeypoints`) -/

/-- A pose keypoint as produced by the simulation: name, pixel coordinates and
a confidence score.  The score, a JS double, is modelled as a rational. -/
structure SimKeypoint where
  name : String
  x : Nat
  y : Nat
  score : ℚ
deriving DecidableEq, Repr

/-- The `{ keypoints }` result object. -/
structure KeypointData where
  keypoints : List SimKeypoint
deriving DecidableEq, Repr

/-- The fixed ordered list of the 17 body-landmark labels. -/
def keypointLabels : List String :=
  ["nose", "eye_left", "eye_right", "ear_left", "ear_right",
   "shoulder_left", "shoulder_right", "elbow_left", "elbow_right",
   "wrist_left", "wrist_right", "hip_left", "hip_right",
   "knee_left", "knee_right", "ankle_left", "ankle_right"]

/-- JS `Number(v.toFixed(3))`: rounding to three decimal places.  The doubles
reaching this call are of the form `0.6 + (b/255)*0.4` with `b ≤ 255`; their
decimal rounding is modelled exactly on rationals. -/
def toFixed3 (q : ℚ) : ℚ := (⌊q * 1000 + 1 / 2⌋ : ℤ) / 1000

/-- `simulateKeypoints` over the hashed seed bytes: for each label at index
`i`, `x = 60 + hash[i] % 400`, `y = 80 + hash[(i+17) % 32] % 520`, and
`score = Number((0.6 + (hash[(i+34) % 32]/255)*0.4).toFixed(3))`. -/
def simulateKeypointsBytes (seedBytes : List Nat) : KeypointData :=
  let hash := sha256 seedBytes
  { keypoints :=
      keypointLabels.enum.map fun p =>
        { name := p.2
          x := 60 + hash.getD p.1 0 % 400
          y := 80 + hash.getD ((p.1 + keypointLabels.length) % hash.length) 0 % 520
          score := toFixed3 (3 / 5 +
            ((hash.getD ((p.1 + keypointLabels.length * 2) % hash.length) 0 : ℚ) / 255) *
              (2 / 5)) } }

/-- `simulateKeypoints(seed)` for a string seed: Node `createHash` consumes the
UTF-8 bytes of the seed. -/
def simulateKeypoints (seed : String) : KeypointData :=
  simulateKeypointsBytes (utf8Bytes seed)

/-! ## Generation adapter (`geminiService.generateContent`)

Request parts are the typed part objects built by `dtpService.buildPartsForJob`:
`{ type: 'text', text }` or `{ type: 'inlineData', inlineData: { mimeType, data } }`.
The 20 MB ceiling is checked against `Buffer.byteLength(JSON.stringify(parts), 'utf8')`
before the `fetch` call. -/

/-- A request part as built by the orchestrator. -/
inductive ReqPart
  | textPart (text : String)
  | inlinePart (mimeType : String) (data : String)
deriving DecidableEq, Repr

/-- Lowercase hex digit, as used by `JSON.stringify` in `\u00XX` escapes. -/
def hexDigit (n : Nat) : String :=
  (["0", "1", "2", "3", "4", "5", "6", "7", "8", "9",
    "a", "b", "c", "d", "e", "f"].getD n "0")

/-- `JSON.stringify` escaping of a single character. -/
def jsonEscapeChar (c : Char) : String :=
  if c = '"' then "\\\""
  else if c = '\\' then "\\\\"
  else if c.toNat = 8 then "\\b"
  else if c.toNat = 9 then "\\t"
  else if c.toNat = 10 then "\\n"
  else if c.toNat = 12 then "\\f"
  else if c.toNat = 13 then "\\r"
  else if c.toNat < 32 then "\\u00" ++ hexDigit (c.toNat / 16) ++ hexDigit (c.toNat % 16)
  else String.singleton c

/-- `JSON.stringify` of a string value (quotes plus escaped content). -/
def jsonStr (s : String) : String :=
  "\"" ++ String.join (s.data.map jsonEscapeChar) ++ "\""

/-- `JSON.stringify` of one part object (object keys in insertion order). -/
def jsonOfPart : ReqPart → String
  | .textPart t => "\x7b\"type\":\"text\",\"text\":" ++ jsonStr t ++ "\x7d"
  | .inlinePart m d =>
    "\x7b\"type\":\"inlineData\",\"inlineData\":\x7b\"mimeType\":" ++ jsonStr m ++
      ",\"data\":" ++ jsonStr d ++ "\x7d\x7d"

/-- `JSON.stringify(parts)` for the parts array. -/
def jsonOfParts (parts : List ReqPart) : String :=
  "[" ++ String.intercalate "," (parts.map jsonOfPart) ++ "]"

/-- `Buffer.byteLength(JSON.stringify(parts), 'utf8')`. -/
def estimatedSize (parts : List ReqPart) : Nat :=
  (utf8Bytes (jsonOfParts parts)).length

/-- `MAX_BODY_SIZE_BYTES = 20 * 1024 * 1024`. -/
def MAX_BODY_SIZE_BYTES : Nat := 20 * 1024 * 1024

/-- Outcome of the phase of `generateContent` before the `fetch` call. -/
inductive GenPre
  | badRequest
  | tooLarge
  | callNet (body : List ReqPart)
deriving DecidableEq, Repr

/-- The validation phase of `generateContent`, up to (but not including) the
network call: empty part lists fail with 400, oversized serialized payloads
with 413.  For the typed parts built by the orchestrator,
`mapPartFromPayload` is a field-for-field copy, so the outgoing body carries
the same parts. -/
def generateContentPre (parts : List ReqPart) : GenPre :=
  if parts.isEmpty then .badRequest
  else if MAX_BODY_SIZE_BYTES < estimatedSize parts then .tooLarge
  else .callNet parts

/-- Whether `generateContent` reaches its `fetch` call. -/
def networkAttempted (parts : List ReqPart) : Bool :=
  match generateContentPre parts with
  | .callNet _ => true
  | _ => false

/-- An inline-data object inside a response part; either field may be absent
or empty (JS truthiness guards both). -/
structure RespInline where
  mimeType : Option String
  data : Option String
deriving DecidableEq, Repr

/-- A part of a candidate response: `part.inlineData || part.inline_data`. -/
structure RespPart where
  inlineData : Option RespInline
  inline_data : Option RespInline
deriving DecidableEq, Repr

/-- A response candidate; `contentParts` is `candidate.content.parts` when the
candidate has a content object whose `parts` is an array. -/
structure RespCandidate where
  contentParts : Option (List RespPart)
deriving DecidableEq, Repr

/-- A parsed response body; `candidates` may be absent (`|| []`). -/
structure RespBody where
  candidates : Option (List RespCandidate)
deriving DecidableEq, Repr

/-- `part.inlineData || part.inline_data`. -/
def inlineOf (p : RespPart) : Option RespInline :=
  match p.inlineData with
  | some d => some d
  | none => p.inline_data

/-- `extractInlineImage`: first candidate part with truthy `mimeType` and
`data` in its inline data, scanning candidates and parts in order. -/
def extractInlineImage (body : RespBody) : Option RespInline :=
  (body.candidates.getD []).findSome? fun c =>
    match c.contentParts with
    | none => none
    | some ps =>
      ps.findSome? fun p =>
        match inlineOf p with
        | some d => if truthyStrOpt d.mimeType && truthyStrOpt d.data then some d else none
        | none => none

/-- The `fetch` outcome: a thrown network error, or a response with `ok`,
`status` and a parsed JSON body. -/
structure NetResponse where
  ok : Bool
  status : Nat
  body : RespBody
deriving DecidableEq, Repr

/-- The failure classes of `generateContent`, with the `statusCode` the code
attaches to each error (the rethrown network error carries none). -/
inductive GenError
  | invalidRequest
  | payloadTooLarge
  | networkFailure
  | apiError (status : Nat)
  | upstreamEmptyResult
deriving DecidableEq, Repr

/-- The `error.statusCode` attached by `generateContent` to each failure. -/
def genErrorStatusCode : GenError → Option Nat
  | .invalidRequest => some 400
  | .payloadTooLarge => some 413
  | .networkFailure => none
  | .apiError status => some status
  | .upstreamEmptyResult => some 502

/-- `generateContent`, as a function of the parts and of the network outcome:
validation, one fetch, error mapping for non-ok responses, 502 when no inline
image is found, and a data URL on success. -/
def generateContent (parts : List ReqPart) (net : Except Unit NetResponse) :
    Except GenError String :=
  match generateContentPre parts with
  | .badRequest => .error .invalidRequest
  | .tooLarge => .error .payloadTooLarge
  | .callNet _ =>
    match net with
    | .error _ => .error .networkFailure
    | .ok resp =>
      if resp.ok = false then .error (.apiError resp.status)
      else
        match extractInlineImage resp.body with
        | none => .error .upstreamEmptyResult
        | some img =>
          .ok ("data:" ++ img.mimeType.getD "" ++ ";base64," ++ img.data.getD "")

/-! ## Job records and the job store (`db.js`, `dtpRoutes.js`) -/

/-- Job status values written by the system. -/
inductive JobStatus
  | QUEUED
  | PROCESSING
  | READY
  | FAILED
deriving DecidableEq, Repr

/-- The metadata bag of a submission (`req.body.metadata`); every field is
optional and loosely typed. -/
structure JobMetadata where
  jobType : Option String
  garmentId : Option String
  garmentName : Option String
  garmentImageUrl : Option String
  baseAvatarJobId : Option String
deriving DecidableEq, Repr

/-- The stored `request_payload` of a job, as assembled by the submission
route. -/
structure RequestPayload where
  photoBase64 : Option String
  prompt : Option String
  garmentImageBase64 : Option String
  metadata : Option JobMetadata
deriving DecidableEq, Repr

/-- A `dtp_jobs` record. -/
structure JobRecord where
  id : String
  user_id : String
  status : JobStatus
  request_payload : RequestPayload
  result_url : Option String
  keypoint_data : Option KeypointData
  created_at : Nat
  updated_at : Nat
deriving DecidableEq, Repr

/-- The INSERT performed by `router.post('/process')`: a new job starts
`QUEUED` with null `result_url` and null `keypoint_data`. -/
def createJobRecord (jobId userId : String) (payload : RequestPayload)
    (now : Nat) : JobRecord :=
  { id := jobId
    user_id := userId
    status := .QUEUED
    request_payload := payload
    result_url := none
    keypoint_data := none
    created_at := now
    updated_at := now }

/-- `db.updateDtpJobStatus(jobId, status, resultUrl, keypointData)` applied to
a stored record: `status` and `result_url` are always written, and
`keypoint_data` is overwritten exactly when the `keypointData` argument was
supplied (outer `none` = JS `undefined` = leave unchanged; `some v` = write
`v`, where `v` may itself be null). -/
def updateDtpJobStatus (job : JobRecord) (status : JobStatus)
    (resultUrl : Option String) (keypointData : Option (Option KeypointData))
    (now : Nat) : JobRecord :=
  { job with
    status := status
    result_url := resultUrl
    updated_at := now
    keypoint_data :=
      match keypointData with
      | none => job.keypoint_data
      | some v => v }

/-! ## Job orchestrator (`dtpService.processDtpJob`) -/

/-- The two normalized job types. -/
inductive JobType
  | BASE_AVATAR
  | GARMENT_OVERLAY
deriving DecidableEq, Repr

/-- `normalizeJobType`: uppercase the raw value (missing values coerce to the
empty string); everything other than `GARMENT_OVERLAY` is `BASE_AVATAR`. -/
def normalizeJobType (jobType : Option String) : JobType :=
  if jsToUpper (jobType.getD "") = "GARMENT_OVERLAY" then .GARMENT_OVERLAY
  else .BASE_AVATAR

/-- `payload?.metadata?.jobType`. -/
def payloadJobType (p : RequestPayload) : Option String :=
  p.metadata.bind fun m => m.jobType

/-- The inline image object `{ mimeType, data }` used throughout the
orchestrator. -/
structure InlineImage where
  mimeType : String
  data : String
deriving DecidableEq, Repr

/-- Case-insensitive match of `;base64,` at the head of a character list. -/
def base64MarkerAt (cs : List Char) : Bool :=
  (cs.take 8).map Char.toLower = [';', 'b', 'a', 's', 'e', '6', '4', ',']

/-- Split at the last case-insensitive occurrence of `;base64,`, returning the
text before the marker and the text after it. -/
def splitLastBase64 : List Char → Option (List Char × List Char)
  | [] => none
  | c :: rest =>
    match splitLastBase64 rest with
    | some (pre, post) => some (c :: pre, post)
    | none =>
      if base64MarkerAt (c :: rest) then some ([], (c :: rest).drop 8)
      else none

/-- `dtpService.extractInlineData`: non-strings and blank strings yield null;
a string matching `/^data:(.+);base64,(.*)$/i` (greedy, so the match uses the
last marker occurrence with a non-empty mime segment) is split into mime type
and payload; anything else is treated as raw base64 PNG data. -/
def extractInlineData (photoBase64 : Option String) : Option InlineImage :=
  match photoBase64 with
  | none => none
  | some s =>
    let trimmed := jsTrim s
    if trimmed = "" then none
    else
      let cs := trimmed.data
      let fallback : Option InlineImage := some ⟨"image/png", trimmed⟩
      if (cs.take 5).map Char.toLower = ['d', 'a', 't', 'a', ':'] then
        match splitLastBase64 (cs.drop 5) with
        | some (pre, post) =>
          if pre = [] then fallback
          else some ⟨String.mk pre, String.mk post⟩
        | none => fallback
      else fallback

/-- One successful `db.updateDtpJobStatus` call issued while processing a job:
the status, the `resultUrl` argument, and the `keypointData` argument (outer
`none` when the argument was omitted). -/
structure StatusWrite where
  status : JobStatus
  resultUrl : Option String
  keypointData : Option (Option KeypointData)
deriving DecidableEq, Repr

/-- The environment a single `processDtpJob` run executes against: the
outcomes of the awaited job-store, pose, build, generation and upload steps.
An `Except.error` models the corresponding `await` throwing; the `ok…` flags
state whether the corresponding `db.updateDtpJobStatus` call succeeds (a
failed write mutates nothing and throws). -/
structure OrchEnv where
  getJob : Except Unit (Option JobRecord)
  okProcessingWrite : Bool
  poseResult : Except Unit KeypointData
  builtParts : Option (List ReqPart)
  generation : Except GenError String
  uploadResult : Except Unit String
  okEmptyPartsFailWrite : Bool
  okReadyWrite : Bool
  okCatchFailWrite : Bool

/-- The catch-block recovery of `processDtpJob`: mark the job `FAILED` with a
null result URL; if even that update fails, log and stop (no write). -/
def catchFailWrites (env : OrchEnv) : List StatusWrite :=
  if env.okCatchFailWrite then [⟨.FAILED, none, none⟩] else []

/-- Steps of `processDtpJob` from the Gemini call onward: generation failure,
missing inline output or upload failure throw into the catch block; on
success the job is marked `READY` with the signed URL, passing the pose
keypoints exactly for `BASE_AVATAR` jobs (`undefined` otherwise). -/
def generateAndUploadWrites (env : OrchEnv) (poseKeypointData : Option KeypointData) :
    List StatusWrite :=
  match env.builtParts with
  | none => if env.okEmptyPartsFailWrite then [⟨.FAILED, none, none⟩] else catchFailWrites env
  | some parts =>
    if parts.length = 0 then
      if env.okEmptyPartsFailWrite then [⟨.FAILED, none, none⟩] else catchFailWrites env
    else
      match env.generation with
      | .error _ => catchFailWrites env
      | .ok imageDataUrl =>
        match extractInlineData (some imageDataUrl) with
        | none => catchFailWrites env
        | some _ =>
          match env.uploadResult with
          | .error _ => catchFailWrites env
          | .ok signedUrl =>
            let keypointUpdate : Option (Option KeypointData) :=
              match poseKeypointData with
              | some kd => some (some kd)
              | none => none
            if env.okReadyWrite then [⟨.READY, some signedUrl, keypointUpdate⟩]
            else catchFailWrites env

/-- The branch on the normalized job type: `BASE_AVATAR` requires a photo and
a keypoint result (a missing photo or a pose failure throws); overlay context
resolution never throws, and missing context is non-fatal. -/
def branchWrites (env : OrchEnv) (jobRecord : JobRecord) : List StatusWrite :=
  match normalizeJobType (payloadJobType jobRecord.request_payload) with
  | .BASE_AVATAR =>
    if jobRecord.request_payload.photoBase64.getD "" = "" then catchFailWrites env
    else
      match env.poseResult with
      | .error _ => catchFailWrites env
      | .ok poseKeypointData => generateAndUploadWrites env (some poseKeypointData)
  | .GARMENT_OVERLAY => generateAndUploadWrites env none

/-- The sequence of successful status writes of one `processDtpJob` run: a
missing job aborts with no writes; otherwise the job moves to `PROCESSING`
(null result URL) and then through `branchWrites`; any exception lands in the
catch block. -/
def processDtpJob (env : OrchEnv) : List StatusWrite :=
  match env.getJob with
  | .error _ => catchFailWrites env
  | .ok none => []
  | .ok (some jobRecord) =>
    if env.okProcessingWrite then
      ⟨.PROCESSING, none, none⟩ :: branchWrites env jobRecord
    else catchFailWrites env

/-- Apply a run's status writes to a stored record. -/
def applyWrites (job : JobRecord) (ws : List StatusWrite) (now : Nat) : JobRecord :=
  ws.foldl (fun j w => updateDtpJobStatus j w.status w.resultUrl w.keypointData now) job

/-- The §3 invariant: `resultUrl` is non-null iff `status = READY`. -/
def resultUrlInv (j : JobRecord) : Prop :=
  j.result_url ≠ none ↔ j.status = .READY

/-- Forward order of statuses: `QUEUED < PROCESSING < READY/FAILED`. -/
def statusRank : JobStatus → Nat
  | .QUEUED => 0
  | .PROCESSING => 1
  | .READY => 2
  | .FAILED => 2

/-- Each consecutive pair of observed statuses moves strictly forward. -/
def strictForward : List JobStatus → Bool
  | a :: b :: rest => decide (statusRank a < statusRank b) && strictForward (b :: rest)
  | _ => true

/-- Terminal statuses appear only in the final position. -/
def terminalLast : List JobStatus → Bool
  | [] => true
  | [_] => true
  | s :: rest => !(decide (s = .READY) || decide (s = .FAILED)) && terminalLast rest

/-- The status sequence observed over a job's lifetime: `QUEUED` at creation,
then the statuses written by its one orchestrator run. -/
def statusSeq (env : OrchEnv) : List JobStatus :=
  .QUEUED :: (processDtpJob env).map (fun w => w.status)

/-! ## Rate limiter (`dtpRoutes.enforceDtpRateLimit`) -/

/-- `RATE_LIMIT_WINDOW_MS = 30 * 1000`. -/
def RATE_LIMIT_WINDOW_MS : Nat := 30 * 1000

/-- The in-memory `userRateLimitMap`, keyed by user id. -/
abbrev RateMap := List (String × Nat)

/-- `Map.prototype.get`. -/
def mapGet (m : RateMap) (k : String) : Option Nat :=
  match m with
  | [] => none
  | p :: rest => if p.1 = k then some p.2 else mapGet rest k

/-- `Map.prototype.set`. -/
def mapSet (m : RateMap) (k : String) (v : Nat) : RateMap :=
  match m with
  | [] => [(k, v)]
  | p :: rest => if p.1 = k then (k, v) :: rest else p :: mapSet rest k v

/-- The middleware decision: 401, pass-through (`next()`), or 429 with the
`Retry-After` header value. -/
inductive RateDecision
  | authRequired
  | proceed
  | tooManyRequests (retryAfterSeconds : Int)
deriving DecidableEq, Repr

/-- JS `Math.ceil(a / 1000)` for integer `a`. -/
def jsCeilDiv1000 (a : Int) : Int := (a + 999) / 1000

/-- `enforceDtpRateLimit`: unauthenticated callers get 401; submissions whose
metadata `jobType` uppercases to `GARMENT_OVERLAY` bypass the limiter without
touching its state; any other submission is rejected with 429 (and an
unchanged map) when less than 30 s elapsed since the user's last accepted
submission, and otherwise accepted with the map timestamp updated
immediately. -/
def enforceDtpRateLimit (st : RateMap) (userId : Option String)
    (jobTypeRaw : Option String) (now : Nat) : RateDecision × RateMap :=
  match userId with
  | none => (.authRequired, st)
  | some uid =>
    let jobType := jsToUpper (jobTypeRaw.getD "")
    if jobType = "GARMENT_OVERLAY" then (.proceed, st)
    else
      let lastRequestAt : Nat := (mapGet st uid).getD 0
      let elapsed : Int := (now : Int) - (lastRequestAt : Int)
      if elapsed < (RATE_LIMIT_WINDOW_MS : Int) then
        (.tooManyRequests (jsCeilDiv1000 ((RATE_LIMIT_WINDOW_MS : Int) - elapsed)), st)
      else
        (.proceed, mapSet st uid now)

/-- A sequence of submissions by one user (same metadata) at the given times,
threading the limiter state. -/
def submitBurst (st : RateMap) (uid : String) (jobTypeRaw : Option String) :
    List Nat → List RateDecision × RateMap
  | [] => ([], st)
  | t :: ts =>
    let r := enforceDtpRateLimit st (some uid) jobTypeRaw t
    let rest := submitBurst r.2 uid jobTypeRaw ts
    (r.1 :: rest.1, rest.2)

/-! ## Memory-fallback query dispatch (`db.runMemoryQuery`) and the status
route (`router.get('/status/:jobId')`)

In memory-fallback mode every `db.query` call goes through `runMemoryQuery`,
which dispatches on lowercase prefixes of the SQL text and throws
`Unsupported memory fallback query` when no branch matches.  The embedding
keeps the full prefix cascade in source order; each branch is represented by
the handler it selects. -/

/-- The handlers of `runMemoryQuery`, in cascade order. -/
inductive MemBranch
  | createTable
  | insertUsers
  | selectUserByEmailWithHash
  | selectUserByEmail
  | insertDtpJobs
  | selectDtpJobByIdAndUser
  | updateDtpJobs
  | insertCatalogItems
  | selectCatalogLong
  | selectCatalogShort
deriving DecidableEq, Repr

/-- The prefix dispatch of `runMemoryQuery` over the normalized (trimmed,
lowercased) query text; `none` means the final `Unsupported memory fallback
query` error is thrown. -/
def memoryBranchOf (text : String) : Option MemBranch :=
  let normalized := jsToLower (jsTrim text)
  if jsStartsWith normalized "create table" then some .createTable
  else if jsStartsWith normalized "insert into users" then some .insertUsers
  else if jsStartsWith normalized "select id, password_hash from users where email" then
    some .selectUserByEmailWithHash
  else if jsStartsWith normalized "select id from users where email" then
    some .selectUserByEmail
  else if jsStartsWith normalized "insert into dtp_jobs" then some .insertDtpJobs
  else if jsStartsWith normalized
      "select id, user_id, status, result_url, request_payload, created_at, updated_at from dtp_jobs where id" then
    some .selectDtpJobByIdAndUser
  else if jsStartsWith normalized "update dtp_jobs set status" then some .updateDtpJobs
  else if jsStartsWith normalized "insert into catalog_items" then some .insertCatalogItems
  else if jsStartsWith normalized
      "select id, name, description, price, image_url, pregenerated_lookbook_url, pregenerated_try_on_url," then
    some .selectCatalogLong
  else if jsStartsWith normalized "select id, name, description, price, image_url" then
    some .selectCatalogShort
  else none

/-- The in-memory `dtpJobs` store. -/
abbrev MemJobStore := List (String × JobRecord)

/-- `memoryStore.dtpJobs.get(id)`. -/
def memGetJob (store : MemJobStore) (id : String) : Option JobRecord :=
  match store with
  | [] => none
  | p :: rest => if p.1 = id then some p.2 else memGetJob rest id

/-- The SQL text issued by `router.get('/status/:jobId')`. -/
def dtpStatusQueryText : String :=
  "SELECT id, user_id, status, result_url, keypoint_data, request_payload, created_at, updated_at FROM dtp_jobs WHERE id = $1 AND user_id = $2 LIMIT 1"

/-- The handler body of the `selectDtpJobByIdAndUser` branch, with the
parameters `[jobId, userId]`: the row scoped to the owner, or no rows. -/
def selectDtpJobRows (store : MemJobStore) (jobId userId : String) :
    List JobRecord :=
  match memGetJob store jobId with
  | none => []
  | some job => if job.user_id = userId then [job] else []

/-- The HTTP outcome of the status route. -/
inductive StatusHttpResult
  | badRequest
  | notFound
  | okJob (jobId : String) (status : JobStatus) (resultUrl : Option String)
      (keypointData : Option KeypointData) (createdAt updatedAt : Nat)
  | serverError
deriving DecidableEq, Repr

/-- `router.get('/status/:jobId')` in memory-fallback mode: a falsy job id is
a 400; the route's SELECT is dispatched by `memoryBranchOf`; a thrown
`Unsupported memory fallback query` is caught and surfaces as a 500; with
rows, zero rows give a 404 and one row yields the job's fields.  Only the
`selectDtpJobByIdAndUser` branch is a SELECT over `dtp_jobs` rows; every
other matched branch would not return job rows for this query shape, which
the route would treat as zero rows (404). -/
def getDtpJobStatusMemory (store : MemJobStore) (callerId jobId : String) :
    StatusHttpResult :=
  if jobId = "" then .badRequest
  else
    match memoryBranchOf dtpStatusQueryText with
    | none => .serverError
    | some .selectDtpJobByIdAndUser =>
      match selectDtpJobRows store jobId callerId with
      | [] => .notFound
      | job :: _ =>
        .okJob job.id job.status job.result_url job.keypoint_data
          job.created_at job.updated_at
    | some _ => .notFound

/-! ## Fitting-metadata normalization (`catalogRoutes.normalizeAnchor`,
`catalogRoutes.normalizeFittingMetadata`) -/

/-- A `coordinates` sub-object of a raw anchor. -/
structure RawCoords where
  x : Option ℚ
  y : Option ℚ
deriving DecidableEq, Repr

/-- A raw anchor entry as received from a seed request.  `name`, `role` and
`notes` are `some` exactly when the JS value is a string; `x`/`y` are `some`
exactly when the JS value is a number. -/
structure RawAnchor where
  name : Option String
  role : Option String
  notes : Option String
  coordinates : Option RawCoords
  x : Option ℚ
  y : Option ℚ
deriving DecidableEq, Repr

/-- The coordinate source of an anchor: the `coordinates` object when it is a
non-null object, the entry itself otherwise. -/
def coordSource (entry : RawAnchor) : RawCoords :=
  match entry.coordinates with
  | some c => c
  | none => ⟨entry.x, entry.y⟩

/-- A normalized anchor as stored in `fitting_metadata`. -/
structure NormAnchor where
  name : Option String
  role : Option String
  x : Option ℚ
  y : Option ℚ
  notes : Option String
deriving DecidableEq, Repr

/-- `normalizeAnchor`: non-object entries are dropped; an entry whose `name`
is falsy (missing, non-string or empty) and whose coordinate pair is
incomplete is dropped; otherwise the truthy `name`, truthy `role`, complete
coordinate pair and truthy `notes` are kept, and an anchor that kept no field
at all is dropped. -/
def normalizeAnchor (entry? : Option RawAnchor) : Option NormAnchor :=
  match entry? with
  | none => none
  | some entry =>
    let anchorName := entry.name
    let anchorRole := entry.role
    let anchorNotes := entry.notes
    let x := (coordSource entry).x
    let y := (coordSource entry).y
    if ¬ truthyStrOpt anchorName ∧ (x = none ∨ y = none) then none
    else
      let normalized : NormAnchor :=
        { name := if truthyStrOpt anchorName then anchorName else none
          role := if truthyStrOpt anchorRole then anchorRole else none
          x := if x ≠ none ∧ y ≠ none then x else none
          y := if x ≠ none ∧ y ≠ none then y else none
          notes := if truthyStrOpt anchorNotes then anchorNotes else none }
      if normalized = ⟨none, none, none, none, none⟩ then none else some normalized

/-- Raw fitting metadata as received: absent/falsy, a bare anchor array, or an
object with optional `anchors`, `notes` and `additionalInstructions`. -/
inductive RawFittingMetadata
  | nullMeta
  | arrayMeta (entries : List (Option RawAnchor))
  | objectMeta (anchors : Option (List (Option RawAnchor)))
      (notes : Option String) (additionalInstructions : Option String)

/-- Normalized fitting metadata as stored. -/
structure NormFittingMetadata where
  anchors : Option (List NormAnchor)
  notes : Option String
  additionalInstructions : Option String
deriving DecidableEq, Repr

/-- `normalizeFittingMetadata`: a bare array becomes `{ anchors }` with the
normalized survivors; an object keeps its normalized non-empty anchor list,
truthy `notes` and truthy `additionalInstructions`, and collapses to null when
nothing remains. -/
def normalizeFittingMetadata : RawFittingMetadata → Option NormFittingMetadata
  | .nullMeta => none
  | .arrayMeta entries =>
    some ⟨some (entries.filterMap normalizeAnchor), none, none⟩
  | .objectMeta anchors? notes? addl? =>
    let anchors : Option (List NormAnchor) :=
      anchors?.map fun l => l.filterMap normalizeAnchor
    let normAnchors : Option (List NormAnchor) :=
      match anchors with
      | some l => if 0 < l.length then some l else none
      | none => none
    let normNotes := if truthyStrOpt notes? then notes? else none
    let normAddl := if truthyStrOpt addl? then addl? else none
    if normAnchors = none ∧ normNotes = none ∧ normAddl = none then none
    else some ⟨normAnchors, normNotes, normAddl⟩

/-- The anchors stored in a normalization result. -/
def storedAnchors (o : Option NormFittingMetadata) : List NormAnchor :=
  match o with
  | none => []
  | some m => m.anchors.getD []

/-- The retention condition as the claim words it: the anchor carries a label
(name or role) or a complete coordinate pair.  (Stated from the claim, to be
compared against what `normalizeAnchor` actually keeps.) -/
def claimRetains (entry : RawAnchor) : Bool :=
  truthyStrOpt entry.name || truthyStrOpt entry.role ||
    (decide ((coordSource entry).x ≠ none) && decide ((coordSource entry).y ≠ none))

/-! ## Helper lemmas -/

theorem sha256_bytes_lt (msg : List Nat) : ∀ b ∈ sha256 msg, b < 256 := by
  intro b hb
  simp only [sha256, wordBytes, List.mem_append, List.mem_cons,
    List.not_mem_nil, or_false] at hb
  omega

theorem getD_lt_of_forall_lt (l : List Nat) (i : Nat) (h : ∀ b ∈ l, b < 256) :
    l.getD i 0 < 256 := by
  induction l generalizing i with
  | nil => simp
  | cons a t ih =>
    cases i with
    | zero => simpa using h a (by simp)
    | succ n =>
      rw [List.getD_cons_succ]
      exact ih n fun b hb => h b (by simp [hb])

theorem sha256_getD_lt (msg : List Nat) (i : Nat) :
    (sha256 msg).getD i 0 < 256 :=
  getD_lt_of_forall_lt _ i (sha256_bytes_lt msg)

theorem toFixed3_bounds (q : ℚ) (h1 : 3 / 5 ≤ q) (h2 : q ≤ 1) :
    3 / 5 ≤ toFixed3 q ∧ toFixed3 q ≤ 1 := by
  have hfl1 : (600 : ℤ) ≤ ⌊q * 1000 + 1 / 2⌋ := by
    rw [Int.le_floor]; push_cast; linarith
  have hfl2 : ⌊q * 1000 + 1 / 2⌋ < 1001 := by
    rw [Int.floor_lt]; push_cast; linarith
  unfold toFixed3
  constructor
  · have hc : (600 : ℚ) ≤ (⌊q * 1000 + 1 / 2⌋ : ℤ) := by exact_mod_cast hfl1
    linarith
  · have hc : ((⌊q * 1000 + 1 / 2⌋ : ℤ) : ℚ) ≤ 1000 := by
      exact_mod_cast Int.lt_add_one_iff.mp hfl2
    linarith

theorem score_bounds (b : Nat) (hb : b < 256) :
    3 / 5 ≤ toFixed3 (3 / 5 + ((b : ℚ) / 255) * (2 / 5)) ∧
      toFixed3 (3 / 5 + ((b : ℚ) / 255) * (2 / 5)) ≤ 1 := by
  have hb0 : (0 : ℚ) ≤ (b : ℚ) := Nat.cast_nonneg b
  have hb255 : (b : ℚ) ≤ 255 := by exact_mod_cast Nat.le_of_lt_succ hb
  refine toFixed3_bounds _ ?_ ?_ <;> nlinarith

/-! ## Claims about the simulated pose adapter -/

/-- C5: the pose simulation is deterministic — the keypoints are a pure
function of the seed's bytes, so byte-identical inputs yield identical
keypoint lists (same labels, coordinates and scores in the same order). -/
theorem simulateKeypoints_deterministic (s1 s2 : String)
    (h : utf8Bytes s1 = utf8Bytes s2) :
    simulateKeypoints s1 = simulateKeypoints s2 := by
  unfold simulateKeypoints
  rw [h]

theorem simulateKeypoints_deterministic_witness :
    utf8Bytes "photo-bytes" = utf8Bytes "photo-bytes" ∧
    simulateKeypoints "photo-bytes" = simulateKeypoints "photo-bytes" :=
  ⟨rfl, simulateKeypoints_deterministic "photo-bytes" "photo-bytes" rfl⟩

/-- The per-keypoint range conditions: x in [60, 459], y in [80, 599], score
in [0.6, 1.0]. -/
def simKeypointOk (kp : SimKeypoint) : Bool :=
  decide (60 ≤ kp.x) && decide (kp.x ≤ 459) &&
  decide (80 ≤ kp.y) && decide (kp.y ≤ 599) &&
  decide ((3 / 5 : ℚ) ≤ kp.score) && decide (kp.score ≤ 1)

/-- C6: for every input, the simulation yields exactly 17 keypoints carrying
the fixed ordered labels `nose … ankle_right`, with x and y in bounded pixel
ranges and every score within [0.6, 1.0]. -/
theorem simulateKeypoints_shape (seed : String) :
    (simulateKeypoints seed).keypoints.length = 17 ∧
    (simulateKeypoints seed).keypoints.map (fun kp => kp.name) = keypointLabels ∧
    (simulateKeypoints seed).keypoints.all simKeypointOk = true := by
  refine ⟨rfl, rfl, ?_⟩
  rw [List.all_eq_true]
  intro kp hkp
  simp only [simulateKeypoints, simulateKeypointsBytes, List.mem_map] at hkp
  obtain ⟨⟨i, lab⟩, _, rfl⟩ := hkp
  have hscore := score_bounds _ (sha256_getD_lt (utf8Bytes seed)
    ((i + keypointLabels.length * 2) % (sha256 (utf8Bytes seed)).length))
  simp only [simKeypointOk, Bool.and_eq_true, decide_eq_true_eq]
  refine ⟨⟨⟨⟨⟨?_, ?_⟩, ?_⟩, ?_⟩, ?_⟩, ?_⟩
  · exact Nat.le_add_right 60 _
  · have := Nat.mod_lt ((sha256 (utf8Bytes seed)).getD i 0) (y := 400) (by norm_num)
    omega
  · exact Nat.le_add_right 80 _
  · have := Nat.mod_lt ((sha256 (utf8Bytes seed)).getD
      ((i + keypointLabels.length) % (sha256 (utf8Bytes seed)).length) 0)
      (y := 520) (by norm_num)
    omega
  · exact hscore.1
  · exact hscore.2

/-! ## Claims about the generation adapter -/

/-- C7: `generateContent` fails with `PayloadTooLarge` (413) exactly when the
serialized parts exceed the fixed 20 MB ceiling — uniformly in the network
outcome, since the check happens before the fetch — and the network call is
attempted exactly for non-empty part lists at or below the ceiling. -/
theorem generateContent_payload_ceiling (parts : List ReqPart)
    (net : Except Unit NetResponse) :
    (generateContent parts net = .error .payloadTooLarge ↔
      MAX_BODY_SIZE_BYTES < estimatedSize parts) ∧
    (networkAttempted parts = true ↔
      parts ≠ [] ∧ estimatedSize parts ≤ MAX_BODY_SIZE_BYTES) ∧
    genErrorStatusCode .payloadTooLarge = some 413 := by
  have hempty : estimatedSize ([] : List ReqPart) = 2 := rfl
  refine ⟨?_, ?_, rfl⟩
  · unfold generateContent generateContentPre
    rcases parts with _ | ⟨p, ps⟩
    · simp [hempty, MAX_BODY_SIZE_BYTES]
    · by_cases hsz : MAX_BODY_SIZE_BYTES < estimatedSize (p :: ps)
      · simp [hsz]
      · simp only [List.isEmpty_cons, Bool.false_eq_true, if_false, if_neg hsz]
        rcases net with _ | resp
        · simp [hsz]
        · by_cases hok : resp.ok = false
          · simp [hok, hsz]
          · simp only [if_neg hok]
            rcases himg : extractInlineImage resp.body with _ | img <;> simp [hsz]
  · unfold networkAttempted generateContentPre
    rcases parts with _ | ⟨p, ps⟩
    · simp [hempty, MAX_BODY_SIZE_BYTES]
    · by_cases hsz : MAX_BODY_SIZE_BYTES < estimatedSize (p :: ps)
      · simp only [List.isEmpty_cons, Bool.false_eq_true, if_false, if_pos hsz,
          false_iff, not_and]
        intro _ hle
        omega
      · simp only [List.isEmpty_cons, Bool.false_eq_true, if_false, if_neg hsz,
          true_iff]
        exact ⟨by simp, by omega⟩

/-! ## Claims about the orchestrator state machine -/

theorem catchFailWrites_shape (env : OrchEnv) :
    catchFailWrites env = [] ∨
    catchFailWrites env = [⟨.FAILED, none, none⟩] := by
  unfold catchFailWrites
  split
  · right; rfl
  · left; rfl

theorem generateAndUploadWrites_shape (env : OrchEnv)
    (poseKeypointData : Option KeypointData) :
    generateAndUploadWrites env poseKeypointData = [] ∨
    generateAndUploadWrites env poseKeypointData = [⟨.FAILED, none, none⟩] ∨
    ∃ u kw, generateAndUploadWrites env poseKeypointData = [⟨.READY, some u, kw⟩] := by
  unfold generateAndUploadWrites
  rcases catchFailWrites_shape env with hc | hc <;>
  · repeat' split
    all_goals
      first
      | (right; right; exact ⟨_, _, rfl⟩)
      | simp [hc]

theorem branchWrites_shape (env : OrchEnv) (jobRecord : JobRecord) :
    branchWrites env jobRecord = [] ∨
    branchWrites env jobRecord = [⟨.FAILED, none, none⟩] ∨
    ∃ u kw, branchWrites env jobRecord = [⟨.READY, some u, kw⟩] := by
  unfold branchWrites
  split
  · split
    · rcases catchFailWrites_shape env with h | h <;> simp [h]
    · split
      · rcases catchFailWrites_shape env with h | h <;> simp [h]
      · rename_i kd _
        exact generateAndUploadWrites_shape env (some kd)
  · exact generateAndUploadWrites_shape env none

theorem processDtpJob_shape (env : OrchEnv) :
    processDtpJob env = [] ∨
    processDtpJob env = [⟨.FAILED, none, none⟩] ∨
    processDtpJob env = [⟨.PROCESSING, none, none⟩] ∨
    processDtpJob env = [⟨.PROCESSING, none, none⟩, ⟨.FAILED, none, none⟩] ∨
    ∃ u kw, processDtpJob env =
      [⟨.PROCESSING, none, none⟩, ⟨.READY, some u, kw⟩] := by
  unfold processDtpJob
  split
  · rcases catchFailWrites_shape env with h | h <;> simp [h]
  · left; rfl
  · rename_i jobRecord _
    split
    · rcases branchWrites_shape env jobRecord with h | h | ⟨u, kw, h⟩ <;> rw [h]
      · right; right; left; rfl
      · right; right; right; left; rfl
      · right; right; right; right; exact ⟨u, kw, rfl⟩
    · rcases catchFailWrites_shape env with h | h <;> simp [h]

/-- C1: starting from the record created at submission (`QUEUED`, null
`resultUrl`) and applying any prefix of the status writes of the job's
orchestrator run, the reachable record always satisfies `resultUrl` non-null
iff `status = READY`: `PROCESSING` and `FAILED` writes carry a null URL, and
the `READY` write carries the signed URL from the artifact upload. -/
theorem resultUrl_iff_ready (env : OrchEnv) (jobId userId : String)
    (payload : RequestPayload) (t0 t1 : Nat) (n : Nat) :
    resultUrlInv (applyWrites (createJobRecord jobId userId payload t0)
      ((processDtpJob env).take n) t1) := by
  rcases processDtpJob_shape env with h | h | h | h | ⟨u, kw, h⟩ <;> rw [h] <;>
    rcases n with _ | _ | n <;>
    simp [applyWrites, updateDtpJobStatus, createJobRecord, resultUrlInv]

/-- C2: a job's observed status sequence — `QUEUED` at creation followed by
the statuses written by its orchestrator run — moves strictly forward along
`QUEUED → PROCESSING → {READY, FAILED}` and never leaves a terminal status;
the created record itself is `QUEUED`. -/
theorem status_monotonic_forward (env : OrchEnv) (jobId userId : String)
    (payload : RequestPayload) (t0 : Nat) :
    (createJobRecord jobId userId payload t0).status = .QUEUED ∧
    strictForward (statusSeq env) = true ∧
    terminalLast (statusSeq env) = true := by
  refine ⟨rfl, ?_, ?_⟩ <;>
    rcases processDtpJob_shape env with h | h | h | h | ⟨u, kw, h⟩ <;>
    simp [statusSeq, h, strictForward, terminalLast, statusRank]

/-- C8: a successful generation response with no usable inline image in any
candidate part makes `generateContent` fail with the 502
`UpstreamEmptyResult` error, and an orchestrator run whose generation step
returns that failure marks the job `FAILED` with a null result URL. -/
theorem emptyImage_fails_job
    (parts : List ReqPart) (resp : NetResponse) (env : OrchEnv)
    (jobRecord : JobRecord)
    (hok : resp.ok = true)
    (hempty : extractInlineImage resp.body = none)
    (hne : parts ≠ [])
    (hsize : estimatedSize parts ≤ MAX_BODY_SIZE_BYTES)
    (hget : env.getJob = .ok (some jobRecord))
    (hproc : env.okProcessingWrite = true)
    (hbuilt : env.builtParts = some parts)
    (hgen : env.generation = generateContent parts (.ok resp))
    (hcatch : env.okCatchFailWrite = true)
    (hbranch : normalizeJobType (payloadJobType jobRecord.request_payload) = .BASE_AVATAR →
      jobRecord.request_payload.photoBase64.getD "" ≠ "" ∧
        ∃ kd, env.poseResult = .ok kd) :
    generateContent parts (.ok resp) = .error .upstreamEmptyResult ∧
    genErrorStatusCode .upstreamEmptyResult = some 502 ∧
    processDtpJob env = [⟨.PROCESSING, none, none⟩, ⟨.FAILED, none, none⟩] := by
  have hgen502 : generateContent parts (.ok resp) = .error .upstreamEmptyResult := by
    unfold generateContent generateContentPre
    rcases parts with _ | ⟨p, ps⟩
    · exact absurd rfl hne
    · simp [if_neg (Nat.not_lt.mpr hsize), hok, hempty]
  have hgenAndUp : ∀ poseKeypointData,
      generateAndUploadWrites env poseKeypointData = [⟨.FAILED, none, none⟩] := by
    intro poseKeypointData
    unfold generateAndUploadWrites
    rw [hbuilt]
    simp only [hgen, hgen502, catchFailWrites, hcatch, if_true]
    split
    · split <;> rfl
    · rfl
  have hbw : branchWrites env jobRecord = [⟨.FAILED, none, none⟩] := by
    unfold branchWrites
    split
    · rename_i hjt
      obtain ⟨hphoto, kd, hpose⟩ := hbranch hjt
      rw [if_neg hphoto, hpose]
      exact hgenAndUp (some kd)
    · exact hgenAndUp none
  refine ⟨hgen502, rfl, ?_⟩
  unfold processDtpJob
  rw [hget]
  simp only [hproc, if_true, hbw]

theorem emptyImage_fails_job_witness :
    generateContent [ReqPart.textPart "overlay prompt"]
        (.ok ⟨true, 200, ⟨none⟩⟩) = .error .upstreamEmptyResult ∧
    genErrorStatusCode .upstreamEmptyResult = some 502 ∧
    processDtpJob
        ⟨.ok (some (createJobRecord "job-1" "user-1" ⟨some "p", none, none, none⟩ 0)),
          true, .ok ⟨[]⟩, some [ReqPart.textPart "overlay prompt"],
          generateContent [ReqPart.textPart "overlay prompt"] (.ok ⟨true, 200, ⟨none⟩⟩),
          .ok "https://storage.googleapis.com/bucket/images/user-1/job-1.png",
          true, true, true⟩ =
      [⟨.PROCESSING, none, none⟩, ⟨.FAILED, none, none⟩] :=
  emptyImage_fails_job [ReqPart.textPart "overlay prompt"] ⟨true, 200, ⟨none⟩⟩
    _ _ rfl rfl (by simp) (by decide) rfl rfl rfl rfl rfl
    (fun _ => ⟨by decide, ⟨⟨[]⟩, rfl⟩⟩)

/-! ## Claims about the rate limiter -/

theorem mapGet_mapSet_self (m : RateMap) (k : String) (v : Nat) :
    mapGet (mapSet m k v) k = some v := by
  induction m with
  | nil => simp [mapSet, mapGet]
  | cons p rest ih =>
    by_cases hk : p.1 = k
    · simp [mapSet, hk, mapGet]
    · simp [mapSet, hk, mapGet, ih]

/-- C4: once a non-overlay submission by a user is accepted, the per-user
timestamp equals that submission's time (updated immediately on acceptance);
a second non-overlay submission within 30 s is rejected with 429 and the
computed retry-after value, leaving the limiter state unchanged (rejections
never update it); and a submission strictly more than 30 s after the accepted
one is accepted again, re-updating the timestamp. -/
theorem rateLimit_single_window (st : RateMap) (uid : String)
    (jobTypeRaw : Option String) (t1 t2 t3 : Nat) (st1 : RateMap)
    (hjt : jsToUpper (jobTypeRaw.getD "") ≠ "GARMENT_OVERLAY")
    (hacc : enforceDtpRateLimit st (some uid) jobTypeRaw t1 = (.proceed, st1)) :
    mapGet st1 uid = some t1 ∧
    ((t2 : Int) - (t1 : Int) < 30000 →
      enforceDtpRateLimit st1 (some uid) jobTypeRaw t2 =
        (.tooManyRequests (jsCeilDiv1000 (30000 - ((t2 : Int) - (t1 : Int)))), st1)) ∧
    ((30000 : Int) < (t3 : Int) - (t1 : Int) →
      (enforceDtpRateLimit st1 (some uid) jobTypeRaw t3).1 = .proceed ∧
      mapGet (enforceDtpRateLimit st1 (some uid) jobTypeRaw t3).2 uid = some t3) := by
  have hwin : ((RATE_LIMIT_WINDOW_MS : Nat) : Int) = 30000 := by norm_num [RATE_LIMIT_WINDOW_MS]
  simp only [enforceDtpRateLimit] at hacc
  rw [if_neg hjt] at hacc
  have hst1 : st1 = mapSet st uid t1 := by
    by_cases hel : ((t1 : Int) - ((mapGet st uid).getD 0 : Int)) < (RATE_LIMIT_WINDOW_MS : Int)
    · rw [if_pos hel] at hacc
      exact absurd (congrArg Prod.fst hacc) (by simp)
    · rw [if_neg hel] at hacc
      exact (congrArg Prod.snd hacc).symm
  have hget1 : mapGet st1 uid = some t1 := hst1 ▸ mapGet_mapSet_self st uid t1
  refine ⟨hget1, ?_, ?_⟩
  · intro hlt
    simp only [enforceDtpRateLimit]
    rw [if_neg hjt, hget1]
    simp only [Option.getD_some]
    rw [if_pos (by rw [hwin]; exact hlt), hwin]
  · intro hgt
    simp only [enforceDtpRateLimit]
    rw [if_neg hjt, hget1]
    simp only [Option.getD_some]
    rw [if_neg (by rw [hwin]; omega)]
    exact ⟨rfl, mapGet_mapSet_self st1 uid t3⟩

theorem rateLimit_single_window_witness :
    mapGet [("user-1", 100000)] "user-1" = some 100000 ∧
    ((120000 : Int) - (100000 : Int) < 30000 →
      enforceDtpRateLimit [("user-1", 100000)] (some "user-1") (some "BASE_AVATAR") 120000 =
        (.tooManyRequests (jsCeilDiv1000 (30000 - ((120000 : Int) - (100000 : Int)))),
          [("user-1", 100000)])) ∧
    ((30000 : Int) < (140000 : Int) - (100000 : Int) →
      (enforceDtpRateLimit [("user-1", 100000)] (some "user-1") (some "BASE_AVATAR") 140000).1 =
        .proceed ∧
      mapGet (enforceDtpRateLimit [("user-1", 100000)] (some "user-1")
        (some "BASE_AVATAR") 140000).2 "user-1" = some 140000) :=
  rateLimit_single_window [] "user-1" (some "BASE_AVATAR") 100000 120000 140000
    [("user-1", 100000)] (by decide) (by decide)

theorem overlay_burst_aux (uid : String) (jobTypeRaw : Option String)
    (hjt : jsToUpper (jobTypeRaw.getD "") = "GARMENT_OVERLAY") :
    ∀ (times : List Nat) (st : RateMap),
      submitBurst st uid jobTypeRaw times =
        (times.map fun _ => RateDecision.proceed, st) := by
  intro times
  induction times with
  | nil => intro st; rfl
  | cons t ts ih =>
    intro st
    simp only [submitBurst, enforceDtpRateLimit, if_pos hjt, ih st, List.map_cons]

/-- C9: the limiter applies to a submission iff its metadata `jobType` does
not uppercase to `GARMENT_OVERLAY`: overlay submissions always pass without
touching the limiter state (so any burst of them is fully accepted with the
state unchanged), while any other `jobType` — including a missing one, which
`normalizeJobType` treats as `BASE_AVATAR` — is throttled whenever it falls
inside the 30-second window of the user's last accepted submission. -/
theorem overlay_exempt_from_throttle (st : RateMap) (uid : String)
    (jobTypeRaw : Option String) (now : Nat) :
    (jsToUpper (jobTypeRaw.getD "") = "GARMENT_OVERLAY" →
      enforceDtpRateLimit st (some uid) jobTypeRaw now = (.proceed, st)) ∧
    (jsToUpper (jobTypeRaw.getD "") ≠ "GARMENT_OVERLAY" →
      normalizeJobType jobTypeRaw = .BASE_AVATAR ∧
      ∀ tPrev, mapGet st uid = some tPrev →
        (now : Int) - (tPrev : Int) < 30000 →
        enforceDtpRateLimit st (some uid) jobTypeRaw now =
          (.tooManyRequests (jsCeilDiv1000 (30000 - ((now : Int) - (tPrev : Int)))), st)) ∧
    (jsToUpper (jobTypeRaw.getD "") = "GARMENT_OVERLAY" →
      ∀ times : List Nat,
        submitBurst st uid jobTypeRaw times =
          (times.map fun _ => RateDecision.proceed, st)) := by
  have hwin : ((RATE_LIMIT_WINDOW_MS : Nat) : Int) = 30000 := by
    norm_num [RATE_LIMIT_WINDOW_MS]
  refine ⟨?_, ?_, ?_⟩
  · intro hjt
    simp only [enforceDtpRateLimit, if_pos hjt]
  · intro hjt
    refine ⟨by simp [normalizeJobType, hjt], ?_⟩
    intro tPrev hPrev hlt
    simp only [enforceDtpRateLimit]
    rw [if_neg hjt, hPrev]
    simp only [Option.getD_some]
    rw [if_pos (by rw [hwin]; exact hlt), hwin]
  · intro hjt times
    exact overlay_burst_aux uid jobTypeRaw hjt times st

theorem overlay_exempt_from_throttle_witness :
    enforceDtpRateLimit [("user-1", 100)] (some "user-1")
      (some "garment_overlay") 105 = (.proceed, [("user-1", 100)]) ∧
    submitBurst [("user-1", 100)] "user-1" (some "garment_overlay")
      [101, 102, 103] =
      ([.proceed, .proceed, .proceed], [("user-1", 100)]) :=
  ⟨(overlay_exempt_from_throttle [("user-1", 100)] "user-1"
      (some "garment_overlay") 105).1 (by decide),
   (overlay_exempt_from_throttle [("user-1", 100)] "user-1"
      (some "garment_overlay") 105).2.2 (by decide) [101, 102, 103]⟩

/-! ## Claim about the status route -/

/-- C3: in memory-fallback mode the status endpoint can never produce the
behaviour the claim describes.  The SELECT issued by
`router.get('/status/:jobId')` names `keypoint_data`, but the `runMemoryQuery`
branch written for the dtp-job lookup matches only the prefix without
`keypoint_data`, so the dispatch falls through every branch, throws
`Unsupported memory fallback query`, and the route's catch turns every lookup
— including an owner's lookup of their own existing job — into a 500, never a
404 and never the job's data. -/
theorem statusRoute_memory_never_found (store : MemJobStore)
    (callerId jobId : String) :
    memoryBranchOf dtpStatusQueryText = none ∧
    (getDtpJobStatusMemory store callerId jobId = .badRequest ∨
      getDtpJobStatusMemory store callerId jobId = .serverError) := by
  have hdispatch : memoryBranchOf dtpStatusQueryText = none := by decide
  refine ⟨hdispatch, ?_⟩
  unfold getDtpJobStatusMemory
  split
  · left; rfl
  · rw [hdispatch]
    right; rfl

/-! ## Claims about fitting-metadata normalization -/

/-- An anchor carrying only a `role` label: by the claim's wording it carries
a label and must be retained. -/
def roleOnlyAnchor : RawAnchor :=
  ⟨none, some "collar", none, none, none, none⟩

/-- C10 counterexample: `normalizeAnchor` keys its discard test on `name`
alone, so an anchor whose only label is a `role` — which the claim says is
retained — is discarded and never stored. -/
theorem normalizeAnchor_role_only_dropped :
    claimRetains roleOnlyAnchor = true ∧
    normalizeAnchor (some roleOnlyAnchor) = none ∧
    storedAnchors (normalizeFittingMetadata (.arrayMeta [some roleOnlyAnchor])) = [] := by
  decide

theorem normalizeAnchor_some_shape (entry? : Option RawAnchor) (a : NormAnchor)
    (h : normalizeAnchor entry? = some a) :
    a.name ≠ none ∨ (a.x ≠ none ∧ a.y ≠ none) := by
  rcases entry? with _ | entry
  · simp [normalizeAnchor] at h
  · rcases hname : entry.name with _ | s
    · rcases hx : (coordSource entry).x with _ | xv <;>
        rcases hy : (coordSource entry).y with _ | yv <;>
        simp [normalizeAnchor, truthyStrOpt, hname, hx, hy] at h <;>
        simp [← h]
    · by_cases hs : s = ""
      · subst hs
        rcases hx : (coordSource entry).x with _ | xv <;>
          rcases hy : (coordSource entry).y with _ | yv <;>
          simp [normalizeAnchor, truthyStrOpt, hname, hx, hy] at h <;>
          simp [← h]
      · rcases hx : (coordSource entry).x with _ | xv <;>
          rcases hy : (coordSource entry).y with _ | yv <;>
          simp [normalizeAnchor, truthyStrOpt, hname, hx, hy, hs] at h <;>
          simp [← h, hname]
  
theorem storedAnchors_ite_none (c : Prop) [Decidable c] (m : NormFittingMetadata)
    (hm : m.anchors = none) :
    storedAnchors (if c then none else some m) = [] := by
  split
  · rfl
  · simp [storedAnchors, hm]

theorem storedAnchors_ite_some (c : Prop) [Decidable c] (m : NormFittingMetadata)
    (l2 : List NormAnchor) (hc : ¬ c) (hm : m.anchors = some l2) :
    storedAnchors (if c then none else some m) = l2 := by
  rw [if_neg hc]
  simp [storedAnchors, hm]

theorem storedAnchors_objectMeta (anchors? : Option (List (Option RawAnchor)))
    (notes? addl? : Option String) :
    storedAnchors (normalizeFittingMetadata (.objectMeta anchors? notes? addl?)) = [] ∨
    ∃ l, anchors? = some l ∧
      storedAnchors (normalizeFittingMetadata (.objectMeta anchors? notes? addl?)) =
        l.filterMap normalizeAnchor := by
  rcases anchors? with _ | l
  · left
    simp only [normalizeFittingMetadata]
    apply storedAnchors_ite_none
    rfl
  · by_cases hlen : 0 < (l.filterMap normalizeAnchor).length
    · right
      refine ⟨l, rfl, ?_⟩
      simp only [normalizeFittingMetadata]
      apply storedAnchors_ite_some
      · intro hc
        obtain ⟨h1, -⟩ := hc
        revert h1
        simp [hlen]
      · simp [hlen]
    · left
      have hnil : l.filterMap normalizeAnchor = [] :=
        List.length_eq_zero.mp (Nat.eq_zero_of_not_pos hlen)
      simp only [normalizeFittingMetadata]
      apply storedAnchors_ite_none
      simp [hnil]

/-- C10 amended: `normalizeAnchor` discards exactly the anchors that have
neither a truthy (non-empty string) `name` nor both x and y coordinates — a
`role` alone does not retain an anchor — and consequently every anchor stored
by `normalizeFittingMetadata` carries a name or a complete coordinate
pair. -/
theorem normalizeAnchor_discards_iff :
    (∀ entry : RawAnchor,
      normalizeAnchor (some entry) = none ↔
        (¬ truthyStrOpt entry.name = true ∧
          ((coordSource entry).x = none ∨ (coordSource entry).y = none))) ∧
    (∀ (raw : RawFittingMetadata) (a : NormAnchor),
      a ∈ storedAnchors (normalizeFittingMetadata raw) →
        a.name ≠ none ∨ (a.x ≠ none ∧ a.y ≠ none)) := by
  constructor
  · intro entry
    rcases hname : entry.name with _ | s
    · rcases hx : (coordSource entry).x with _ | xv <;>
        rcases hy : (coordSource entry).y with _ | yv <;>
        simp [normalizeAnchor, truthyStrOpt, hname, hx, hy]
    · by_cases hs : s = ""
      · subst hs
        rcases hx : (coordSource entry).x with _ | xv <;>
          rcases hy : (coordSource entry).y with _ | yv <;>
          simp [normalizeAnchor, truthyStrOpt, hname, hx, hy]
      · rcases hx : (coordSource entry).x with _ | xv <;>
          rcases hy : (coordSource entry).y with _ | yv <;>
          simp [normalizeAnchor, truthyStrOpt, hname, hx, hy, hs]
  · intro raw a ha
    rcases raw with _ | entries | ⟨anchors?, notes?, addl?⟩
    · simp [normalizeFittingMetadata, storedAnchors] at ha
    · simp only [normalizeFittingMetadata, storedAnchors, Option.getD_some,
        List.mem_filterMap] at ha
      obtain ⟨e, _, he⟩ := ha
      exact normalizeAnchor_some_shape e a he
    · rcases storedAnchors_objectMeta anchors? notes? addl? with h | ⟨l, _, h⟩
      · rw [h] at ha
        simp at ha
      · rw [h] at ha
        obtain ⟨e, _, he⟩ := List.mem_filterMap.mp ha
        exact normalizeAnchor_some_shape e a he

theorem normalizeAnchor_discards_iff_witness :
    (⟨some "chest", none, some 1, some 2, none⟩ : NormAnchor).name ≠ none ∨
      ((⟨some "chest", none, some 1, some 2, none⟩ : NormAnchor).x ≠ none ∧
        (⟨some "chest", none, some 1, some 2, none⟩ : NormAnchor).y ≠ none) :=
  normalizeAnchor_discards_iff.2
    (.objectMeta (some [some ⟨some "chest", none, none, none, some 1, some 2⟩]) none none)
    ⟨some "chest", none, some 1, some 2, none⟩ (by decide)
